import Mathlib

/-!
Shallow embedding of the API-key authentication subsystem of the Legal RAG
MCP server (files src/api_key_auth.py and src/api_key_auth_db.py), together
with theorems settling the frozen claims about it.

Python strings are modelled as lists of characters (Str below) with
structurally recursive versions of the str methods the code uses, Python
ints and timestamps as Nat (all timestamps in the code are positive epoch
seconds, so Python int() truncation of a positive division is Nat
division), Python dicts as association lists, and store / RPC effects as
explicit oracle functions plus a trace of the calls that were issued.  A
Python function that can raise is modelled with an explicit error
constructor in its result type.
-/

namespace PyStr

/-- A Python str: a sequence of characters. -/
abbrev Str := List Char

/-- Python s.split(sep) for a single-character separator: pieces between
separator occurrences, empties kept, and the empty string splits to a
single empty piece (Python ''.split(',') == ['']). -/
def splitPred (p : Char → Bool) : Str → List Str
  | [] => [[]]
  | c :: rest =>
    let r := splitPred p rest
    if p c then [] :: r
    else
      match r with
      | [] => [[c]]
      | piece :: more => (c :: piece) :: more

/-- Drop leading characters satisfying Python str.strip()'s whitespace
test. -/
def trimLeft : Str → Str
  | [] => []
  | c :: rest => if c.isWhitespace then trimLeft rest else c :: rest

/-- Python s.strip(): drop leading and trailing whitespace. -/
def trim (s : Str) : Str :=
  ((trimLeft ((trimLeft s).reverse)).reverse)

/-- Python s.startswith(pre). -/
def startsWith : Str → Str → Bool
  | _, [] => true
  | [], _ :: _ => false
  | c :: s, d :: t => c == d && startsWith s t

/-- Python s.lower() (over the ASCII configuration values the code
compares). -/
def toLower (s : Str) : Str :=
  s.map Char.toLower

/-- Python (c in s) for a single character. -/
def containsChar (s : Str) (c : Char) : Bool :=
  s.any (fun d => d == c)

/-- Python sep.join(pieces). -/
def joinWith (sep : Str) : List Str → Str
  | [] => []
  | [x] => x
  | x :: xs => x ++ sep ++ joinWith sep xs

/-- Python str.split() with no arguments: split on whitespace runs and
drop empty pieces (so it returns [] on a whitespace-only string). -/
def splitWhitespace (s : Str) : List Str :=
  (splitPred Char.isWhitespace s).filter (fun piece => !(piece == []))

end PyStr

open PyStr (Str)

namespace ApiKeyAuth

/-- Embeds dataclass APIKeyConfig of src/api_key_auth.py: enabled flag,
list of valid plaintext keys, and the optional key -> client-name dict. -/
structure APIKeyConfig where
  enabled : Bool
  api_keys : List Str
  key_names : List (Str × Str)
deriving DecidableEq

/-- Python dict lookup d.get(k, dflt) over an association list whose keys
are unique (maintained by dictInsertStr). -/
def dictGetStr : List (Str × Str) → Str → Str → Str
  | [], _, dflt => dflt
  | p :: d, k, dflt => if p.1 == k then p.2 else dictGetStr d k dflt

/-- Python dict assignment d[k] = v: overrides an existing binding for k
in place, otherwise appends a new one (insertion order preserved, as in
CPython). -/
def dictInsertStr : List (Str × Str) → Str → Str → List (Str × Str)
  | [], k, v => [(k, v)]
  | p :: d, k, v => if p.1 == k then (k, v) :: d else p :: dictInsertStr d k v

/-- secrets.compare_digest on two strings: its boolean value is plain
equality; its constant-time execution is modelled by the comparison
counter threaded through validateLoop below. -/
def compare_digest (a b : Str) : Bool :=
  a == b

/-- The loop body of validate_api_key (src/api_key_auth.py lines 89-93):
walks config.api_keys in order, returns (True, client_name) at the first
candidate for which compare_digest succeeds, and (False, None) after the
list ends.  The Nat component counts how many compare_digest calls were
executed, the observable cost of the loop. -/
def validateLoop (provided_key : Str) :
    List Str → List (Str × Str) → (Bool × Option Str) × Nat
  | [], _ => ((false, none), 0)
  | valid_key :: rest, key_names =>
    if compare_digest provided_key valid_key then
      ((true, some (dictGetStr key_names valid_key "Unknown".toList)), 1)
    else
      let r := validateLoop provided_key rest key_names
      (r.1, r.2 + 1)

/-- validate_api_key of src/api_key_auth.py: result component of the loop. -/
def validate_api_key (provided_key : Str) (config : APIKeyConfig) :
    Bool × Option Str :=
  (validateLoop provided_key config.api_keys config.key_names).1

/-- Number of compare_digest calls validate_api_key performs on the given
input: the timing-observable cost of the candidate loop. -/
def validate_api_key_comparisons (provided_key : Str)
    (config : APIKeyConfig) : Nat :=
  (validateLoop provided_key config.api_keys config.key_names).2

/-- The MCP_API_KEYS parser of APIKeyConfig.from_env (line 48):
[key.strip() for key in api_keys_str.split(',') if key.strip()], the
truthiness filter dropping empty strips. -/
def parseKeys (api_keys_str : Str) : List Str :=
  ((PyStr.splitPred (fun c => c == ',') api_keys_str).map PyStr.trim).filter
    (fun k => !(k == []))

/-- pair.split(':', 1): split at the first colon only. -/
def splitFirstColon (pair : Str) : Str × Str :=
  match PyStr.splitPred (fun c => c == ':') pair with
  | [] => (pair, [])
  | x :: rest => (x, PyStr.joinWith ":".toList rest)

/-- The MCP_API_KEY_NAMES parser of from_env (lines 51-57): for each
comma-separated pair containing a colon, assign name to key in the dict. -/
def parseKeyNames (key_names_str : Str) : List (Str × Str) :=
  if key_names_str == [] then []
  else
    (PyStr.splitPred (fun c => c == ',') key_names_str).foldl
      (fun d pair =>
        if PyStr.containsChar pair ':' then
          let kv := splitFirstColon pair
          dictInsertStr d (PyStr.trim kv.1) (PyStr.trim kv.2)
        else d) []

/-- The three environment variables from_env reads; none models an unset
variable (os.getenv default applies). -/
structure Env where
  mcp_api_auth_enabled : Option Str
  mcp_api_keys : Option Str
  mcp_api_key_names : Option Str

/-- APIKeyConfig.from_env (src/api_key_auth.py lines 31-71).  The Bool
component records whether the configuration-validation warning at lines
60-65 was emitted; in that branch enabled is forced to False. -/
def from_env (env : Env) : APIKeyConfig × Bool :=
  let enabled_str := PyStr.toLower (env.mcp_api_auth_enabled.getD "false".toList)
  let enabled := enabled_str == "true".toList
  let api_keys := parseKeys (env.mcp_api_keys.getD [])
  let key_names := parseKeyNames (env.mcp_api_key_names.getD [])
  if enabled && api_keys.isEmpty then
    ({ enabled := false, api_keys := api_keys, key_names := key_names }, true)
  else
    ({ enabled := enabled, api_keys := api_keys, key_names := key_names }, false)

/-- Outcome of APIKeyMiddleware.dispatch for one request: an HTTP response
with the given status code, or an uncaught Python exception escaping the
middleware. -/
inductive DispatchResult where
  | response (status : Nat)
  | pythonError (msg : Str)
deriving DecidableEq

/-- The mode-independent part of APIKeyMiddleware.dispatch
(src/api_key_auth.py lines 176-215): public-path bypass, missing-header
401, Bearer-scheme check echoing auth_header.split()[0] (an IndexError
when split() is empty, since the guard only checks non-emptiness of the
header), then token extraction.  replace("Bearer ", "", 1).strip() under
the startsWith guard removes exactly the 7-character prefix before
stripping.  handle_token is the mode-specific continuation (database or
environment-variable branch). -/
def dispatch (request_path auth_header : Str)
    (handle_token : Str → DispatchResult) : DispatchResult :=
  if request_path == "/health".toList || request_path == "/".toList then
    .response 200
  else if auth_header == [] then
    .response 401
  else if !(PyStr.startsWith auth_header "Bearer ".toList) then
    match PyStr.splitWhitespace auth_header with
    | [] => .pythonError "IndexError: list index out of range".toList
    | _ :: _ => .response 401
  else
    handle_token (PyStr.trim (auth_header.drop 7))

/-- dispatch in environment-variable mode (db_mode = False, lines
294-315): validate the token against the static config; 200 on success
via call_next, 401 otherwise. -/
def dispatch_env_mode (config : APIKeyConfig)
    (request_path auth_header : Str) : DispatchResult :=
  dispatch request_path auth_header (fun api_key =>
    if (validate_api_key api_key config).1 then .response 200
    else .response 401)

end ApiKeyAuth

namespace LegalRagServer

/-- The middleware-installation decision of src/legal_rag_server.py line
293: APIKeyMiddleware is added to the request pipeline only when database
auth or static-config auth is enabled; otherwise no request is ever
intercepted, so none is rejected for authentication. -/
def middleware_installed (db_auth_enabled : Bool)
    (auth_config : ApiKeyAuth.APIKeyConfig) : Bool :=
  db_auth_enabled || auth_config.enabled

end LegalRagServer

namespace ApiKeyAuthDb

/-- Value of key_record.get("rate_limit_per_...") for one JSON field: the
column may be absent from the record, SQL NULL, or an integer. -/
inductive LimitField where
  | absent
  | null
  | val (n : Int)
deriving DecidableEq

/-- Python key_record.get(field, default): the default fills in only an
absent key; an explicit None (NULL column) is returned as is.  The result
is a Python value: None or an int. -/
inductive PyVal where
  | none
  | int (n : Int)
deriving DecidableEq

/-- Python truthiness of the looked-up limit: None and 0 are falsy. -/
def PyVal.truthy : PyVal → Bool
  | .none => false
  | .int n => !(n == 0)

/-- key_record.get(field, default) for a rate-limit column. -/
def pyGetLimit : LimitField → Int → PyVal
  | .absent, d => .int d
  | .null, _ => .none
  | .val n, _ => .int n

/-- The api_keys row fields this subsystem reads (is_active filtering is
done store-side by the query in _get_cached_key).  expires_at is an epoch
second; none covers both an absent and a NULL column, which the truthiness
guard at line 94 of src/api_key_auth_db.py treats alike (skip the check). -/
structure KeyRecord where
  id : Nat
  expires_at : Option Nat
  rate_limit_per_minute : LimitField
  rate_limit_per_hour : LimitField
  rate_limit_per_day : LimitField
  total_requests : Nat
deriving DecidableEq

/-- Result of the store query in _get_cached_key for one key hash: the
query raised, matched no active row, or returned a row. -/
inductive FetchResult where
  | err
  | notFound
  | found (rec : KeyRecord)
deriving DecidableEq

/-- The functools.lru_cache(maxsize=100) on _get_cached_key: entries most
recent first, keyed by the (key_hash, cache_key) argument pair (both
modelled as Nat); the cached value is the function's Option KeyRecord
result.  maxsize is 100 in the source (cacheMaxsize below). -/
structure LruCache where
  maxsize : Nat
  entries : List ((Nat × Nat) × Option KeyRecord)

def cacheMaxsize : Nat := 100

/-- An LruCache as lru_cache(maxsize=100) starts: empty. -/
def emptyCache : LruCache :=
  { maxsize := cacheMaxsize, entries := [] }

/-- Cache lookup: some v when the argument pair is cached (v being the
cached Option KeyRecord), none on a miss. -/
def lruLookup (c : LruCache) (k : Nat × Nat) : Option (Option KeyRecord) :=
  (c.entries.find? (fun e => e.1 == k)).map (fun e => e.2)

/-- On a hit, lru_cache moves the entry to most-recently-used position. -/
def lruTouch (c : LruCache) (k : Nat × Nat) : LruCache :=
  match c.entries.find? (fun e => e.1 == k) with
  | some e => { c with entries := e :: c.entries.filter (fun x => !(x.1 == k)) }
  | none => c

/-- On a miss, lru_cache stores the computed value as most recent and
evicts the least-recently-used entry when the size would exceed maxsize. -/
def lruInsert (c : LruCache) (k : Nat × Nat) (v : Option KeyRecord) : LruCache :=
  { c with entries := ((k, v) :: c.entries).take c.maxsize }

/-- self._cache_ttl = 300 (5 minutes). -/
def cache_ttl : Nat := 300

/-- The Option KeyRecord the body of _get_cached_key computes from the
store reply: a raised store error is caught at lines 62-64 and turned
into None, as is an empty result set. -/
def fetchValue (fetch : Nat → FetchResult) (key_hash : Nat) : Option KeyRecord :=
  match fetch key_hash with
  | .err => none
  | .notFound => none
  | .found rec => some rec

/-- _get_cached_key (src/api_key_auth_db.py lines 43-64) together with its
lru_cache wrapper: on a hit return the cached value (the store is not
consulted), on a miss run the body against the store and cache its result
(the caught-error None included).  The Bool records whether the store was
queried, the call's observable effect. -/
def get_cached_key (fetch : Nat → FetchResult) (c : LruCache)
    (key_hash cache_key : Nat) : (Option KeyRecord × LruCache) × Bool :=
  match lruLookup c (key_hash, cache_key) with
  | some v => ((v, lruTouch c (key_hash, cache_key)), false)
  | none =>
    let v := fetchValue fetch key_hash
    ((v, lruInsert c (key_hash, cache_key) v), true)

/-- What one call of APIKeyDB.validate_api_key produced: the returned
(is_valid, key_record) pair, the cache state after the call, the record
_get_cached_key handed back (what the call observed), and whether the
store was queried. -/
structure ValidateOut where
  result : Bool × Option KeyRecord
  cache : LruCache
  consulted : Option KeyRecord
  fetched : Bool

/-- APIKeyDB.validate_api_key (src/api_key_auth_db.py lines 66-105).  The
key hash (SHA-256 in the source) is an oracle hash function on Nat-coded
keys; cache_key is int(now / 300); the expiry check rejects when
expires_at < now.  A store error never escapes: _get_cached_key already
maps it to None, which this function reports as (False, None). -/
def validate_api_key (hash : Nat → Nat) (fetch : Nat → FetchResult)
    (now : Nat) (api_key : Nat) (c : LruCache) : ValidateOut :=
  let key_hash := hash api_key
  let cache_window := now / cache_ttl
  let fr := get_cached_key fetch c key_hash cache_window
  let key_record := fr.1.1
  let c' := fr.1.2
  match key_record with
  | none => ⟨(false, none), c', key_record, fr.2⟩
  | some rec =>
    match rec.expires_at with
    | some expires_at =>
      if expires_at < now then ⟨(false, none), c', key_record, fr.2⟩
      else ⟨(true, some rec), c', key_record, fr.2⟩
    | none => ⟨(true, some rec), c', key_record, fr.2⟩

/-- Run a sequence of validate_api_key calls (all with the same store
snapshot and clock), threading the cache. -/
def runValidations (hash : Nat → Nat) (fetch : Nat → FetchResult)
    (now : Nat) (api_keys : List Nat) (c : LruCache) : LruCache :=
  api_keys.foldl (fun cc k => (validate_api_key hash fetch now k cc).cache) c

/-- The three rate-limit windows of check_rate_limit. -/
inductive Period where
  | minute
  | hour
  | day
deriving DecidableEq

/-- Reply of one check_rate_limit RPC: the call raised, returned no rows,
or returned a row with the given is_within_limit flag. -/
inductive RpcResult where
  | err
  | noData
  | within (b : Bool)
deriving DecidableEq

/-- Outcome of one window's check inside check_rate_limit. -/
inductive StepOutcome where
  | proceed
  | exceeded
  | storeError
deriving DecidableEq

/-- One window of check_rate_limit (src/api_key_auth_db.py lines 128-162):
skipped entirely when the limit is falsy; otherwise the RPC is issued and
the window is exceeded only when rows came back with is_within_limit
False; a raised RPC error aborts to the except handler. -/
def checkPeriod (store : Period → RpcResult) (limit : PyVal)
    (p : Period) : StepOutcome :=
  if limit.truthy then
    match store p with
    | .err => .storeError
    | .noData => .proceed
    | .within b => if b then .proceed else .exceeded
  else .proceed

/-- APIKeyDB.check_rate_limit (src/api_key_auth_db.py lines 107-169) with
an explicit trace of the RPC calls issued, in order.  Windows are checked
minute, hour, day; the first exceeded window returns (False, period,
fixed reset seconds); any raised store error falls to the except handler
which fails open with (True, None, None). -/
def check_rate_limit_trace (key_record : KeyRecord)
    (store : Period → RpcResult) :
    (Bool × Option Period × Option Nat) × List Period :=
  let limit_per_minute := pyGetLimit key_record.rate_limit_per_minute 60
  let limit_per_hour := pyGetLimit key_record.rate_limit_per_hour 1000
  let limit_per_day := pyGetLimit key_record.rate_limit_per_day 10000
  let tm : List Period := if limit_per_minute.truthy then [.minute] else []
  match checkPeriod store limit_per_minute .minute with
  | .storeError => ((true, none, none), tm)
  | .exceeded => ((false, some .minute, some 60), tm)
  | .proceed =>
    let th : List Period := if limit_per_hour.truthy then [.hour] else []
    match checkPeriod store limit_per_hour .hour with
    | .storeError => ((true, none, none), tm ++ th)
    | .exceeded => ((false, some .hour, some 3600), tm ++ th)
    | .proceed =>
      let td : List Period := if limit_per_day.truthy then [.day] else []
      match checkPeriod store limit_per_day .day with
      | .storeError => ((true, none, none), tm ++ th ++ td)
      | .exceeded => ((false, some .day, some 86400), tm ++ th ++ td)
      | .proceed => ((true, none, none), tm ++ th ++ td)

/-- The (is_within_limit, period, reset seconds) triple check_rate_limit
returns. -/
def check_rate_limit (key_record : KeyRecord) (store : Period → RpcResult) :
    Bool × Option Period × Option Nat :=
  (check_rate_limit_trace key_record store).1

/-- The rate-limit column of a record for a given period, and the default
check_rate_limit pairs with it. -/
def limitFieldOf (key_record : KeyRecord) : Period → LimitField
  | .minute => key_record.rate_limit_per_minute
  | .hour => key_record.rate_limit_per_hour
  | .day => key_record.rate_limit_per_day

def defaultLimitOf : Period → Int
  | .minute => 60
  | .hour => 1000
  | .day => 10000

/-- self._batch_update_threshold = 10. -/
def batch_update_threshold : Nat := 10

/-- Python dict get with default over the Nat-keyed _request_counts. -/
def dictGetNat : List (Nat × Nat) → Nat → Nat → Nat
  | [], _, dflt => dflt
  | p :: d, k, dflt => if p.1 == k then p.2 else dictGetNat d k dflt

/-- Python dict assignment over _request_counts: override in place or
append. -/
def dictSetNat : List (Nat × Nat) → Nat → Nat → List (Nat × Nat)
  | [], k, v => [(k, v)]
  | p :: d, k, v => if p.1 == k then (k, v) :: d else p :: dictSetNat d k v

/-- One api_keys-table update issued by update_key_last_used: it always
carries last_used_at (timestamp elided); total records the total_requests
value included when increment_requests was set. -/
structure WriteEvent where
  id : Nat
  total : Option Nat
deriving DecidableEq

/-- APIKeyDB.update_key_last_used (src/api_key_auth_db.py lines 223-255).
store_totals gives the persisted total_requests per key id (the row
exists, the key having just been validated).  Returns the new store
state, the new _request_counts dict, and the store updates issued by this
call (empty or a single event).  Increment the in-memory counter, and
only when it is a multiple of the threshold read the stored total, write
stored + counter, and reset the counter to zero. -/
def update_key_last_used (store_totals : Nat → Nat)
    (counts : List (Nat × Nat)) (api_key_id : Nat)
    (increment_requests : Bool) :
    (Nat → Nat) × List (Nat × Nat) × List WriteEvent :=
  let counts :=
    if increment_requests then
      dictSetNat counts api_key_id (dictGetNat counts api_key_id 0 + 1)
    else counts
  let request_count := dictGetNat counts api_key_id 0
  if request_count % batch_update_threshold == 0 then
    if increment_requests then
      let stored := store_totals api_key_id
      let new_total := stored + request_count
      (fun i => if i == api_key_id then new_total else store_totals i,
        dictSetNat counts api_key_id 0,
        [⟨api_key_id, some new_total⟩])
    else
      (store_totals, counts, [⟨api_key_id, none⟩])
  else
    (store_totals, counts, [])

/-- n accepted requests for one credential: n update_key_last_used calls
with increment_requests = True, accumulating the issued store updates. -/
def runUpdates (store_totals : Nat → Nat) (counts : List (Nat × Nat))
    (api_key_id : Nat) : Nat → (Nat → Nat) × List (Nat × Nat) × List WriteEvent
  | 0 => (store_totals, counts, [])
  | n + 1 =>
    let r := runUpdates store_totals counts api_key_id n
    let s := update_key_last_used r.1 r.2.1 api_key_id true
    (s.1, s.2.1, r.2.2 ++ s.2.2)

end ApiKeyAuthDb

/-! Concrete fixtures used by the witnesses and counterexamples below. -/

/-- A static config with two valid credentials and no client names. -/
def c1config : ApiKeyAuth.APIKeyConfig :=
  { enabled := true
    api_keys := ["key-alpha".toList, "key-beta".toList]
    key_names := [] }

/-- A static config with a single valid credential. -/
def c2config : ApiKeyAuth.APIKeyConfig :=
  { enabled := true
    api_keys := ["secret-key".toList]
    key_names := [] }

/-- The record the store holds for the observed credential before the
store-side mutation. -/
def c5recBefore : ApiKeyAuthDb.KeyRecord :=
  { id := 7
    expires_at := none
    rate_limit_per_minute := .absent
    rate_limit_per_hour := .absent
    rate_limit_per_day := .absent
    total_requests := 0 }

/-- The same row after a store-side mutation within the bucket. -/
def c5recAfter : ApiKeyAuthDb.KeyRecord :=
  { c5recBefore with total_requests := 42 }

/-- Store snapshot before the mutation: every hash resolves to
c5recBefore. -/
def c5storeBefore : Nat → ApiKeyAuthDb.FetchResult :=
  fun _ => .found c5recBefore

/-- Store snapshot after the mutation of the observed credential (hash 0). -/
def c5storeAfter : Nat → ApiKeyAuthDb.FetchResult :=
  fun h => if h == 0 then .found c5recAfter else .found c5recBefore

/-- First validation of credential 0 at time 1000 on a cold cache. -/
def c5firstCall : ApiKeyAuthDb.ValidateOut :=
  ApiKeyAuthDb.validate_api_key id c5storeBefore 1000 0 ApiKeyAuthDb.emptyCache

/-- 100 distinct other credentials validated in the same bucket: their
cache entries evict credential 0's entry (lru_cache maxsize is 100). -/
def c5evicted : ApiKeyAuthDb.LruCache :=
  ApiKeyAuthDb.runValidations id c5storeBefore 1000 (List.range' 1 100)
    c5firstCall.cache

/-- Second validation of credential 0, still at time 1000 (same bucket),
after the mutation. -/
def c5secondCall : ApiKeyAuthDb.ValidateOut :=
  ApiKeyAuthDb.validate_api_key id c5storeAfter 1000 0 c5evicted

/-- A record carrying none of the optional columns: every limit takes the
check_rate_limit default. -/
def recDefaults : ApiKeyAuthDb.KeyRecord :=
  { id := 1
    expires_at := none
    rate_limit_per_minute := .absent
    rate_limit_per_hour := .absent
    rate_limit_per_day := .absent
    total_requests := 0 }

/-- recDefaults with an explicit per-minute ceiling of 0. -/
def recMinuteZero : ApiKeyAuthDb.KeyRecord :=
  { recDefaults with rate_limit_per_minute := .val 0 }

/-- recDefaults expired at epoch second 500. -/
def recExpired : ApiKeyAuthDb.KeyRecord :=
  { recDefaults with expires_at := some 500 }

/-- A store whose every rate-limit RPC raises. -/
def storeAllErr : ApiKeyAuthDb.Period → ApiKeyAuthDb.RpcResult :=
  fun _ => .err

/-- A store whose every rate-limit RPC reports within-limit. -/
def storeAllOk : ApiKeyAuthDb.Period → ApiKeyAuthDb.RpcResult :=
  fun _ => .within true

/-- A store whose every fetch reports the expired record. -/
def c6store : Nat → ApiKeyAuthDb.FetchResult :=
  fun _ => .found recExpired

/-- A store whose every fetch raises. -/
def c9store : Nat → ApiKeyAuthDb.FetchResult :=
  fun _ => .err

/-! Shared helper lemmas about the dictionary and cache embeddings. -/

open ApiKeyAuthDb

/-- Reading back the key just assigned in a Python dict yields the
assigned value. -/
theorem dictGetNat_dictSetNat (d : List (Nat × Nat)) (k v dflt : Nat) :
    dictGetNat (dictSetNat d k v) k dflt = v := by
  induction d with
  | nil => simp [dictSetNat, dictGetNat]
  | cons q d ih =>
    by_cases hq : q.1 = k
    · simp [dictSetNat, dictGetNat, hq]
    · simp [dictSetNat, dictGetNat, hq, ih]

/-- Moving an entry to most-recently-used position does not change what a
lookup of that key sees. -/
theorem lruLookup_lruTouch (c : LruCache) (k : Nat × Nat) :
    lruLookup (lruTouch c k) k = lruLookup c k := by
  unfold lruLookup lruTouch
  cases hf : c.entries.find? (fun e => e.1 == k) with
  | none => simp [hf]
  | some e =>
    have he : (e.1 == k) = true := by simpa using List.find?_some hf
    simp [hf, List.find?_cons_of_pos, he]

/-- Immediately after an insertion into a cache of positive capacity, the
inserted key is present with the inserted value. -/
theorem lruLookup_lruInsert (c : LruCache) (k : Nat × Nat)
    (v : Option KeyRecord) (h : 0 < c.maxsize) :
    lruLookup (lruInsert c k v) k = some v := by
  unfold lruLookup lruInsert
  obtain ⟨n, hn⟩ : ∃ n, c.maxsize = n + 1 := ⟨c.maxsize - 1, by omega⟩
  simp [hn, List.take_succ_cons, List.find?_cons_of_pos]

/-- validate_api_key's cache effects all come from its single
_get_cached_key call: the resulting cache state, the observed record and
the fetched flag are those of get_cached_key at (hash, bucket). -/
theorem validate_api_key_effects (hash : Nat → Nat)
    (fetch : Nat → FetchResult) (now api_key : Nat) (c : LruCache) :
    (validate_api_key hash fetch now api_key c).cache =
      (get_cached_key fetch c (hash api_key) (now / cache_ttl)).1.2 ∧
    (validate_api_key hash fetch now api_key c).consulted =
      (get_cached_key fetch c (hash api_key) (now / cache_ttl)).1.1 ∧
    (validate_api_key hash fetch now api_key c).fetched =
      (get_cached_key fetch c (hash api_key) (now / cache_ttl)).2 := by
  unfold validate_api_key
  rcases hv : (get_cached_key fetch c (hash api_key) (now / cache_ttl)).1.1
    with _ | rec
  · simp [hv]
  · rcases he : rec.expires_at with _ | e
    · simp [hv, he]
    · simp only [hv, he]
      split <;> simp

/-! Claim theorems. -/

/-- Claim C1 (code_bug evidence): the StaticConfig validation loop exits
at the first matching candidate, so the number of compare_digest calls
(hence the comparison time) varies with which candidate matched: with two
configured credentials, providing the first costs one comparison and
providing the second costs two, while the claim requires a comparison
against every configured credential with no early exit on match.  (The
non-matching case does scan all candidates: two comparisons.) -/
theorem C1_early_exit_on_match :
    ApiKeyAuth.validate_api_key "key-alpha".toList c1config =
      (true, some "Unknown".toList) ∧
    ApiKeyAuth.validate_api_key "key-beta".toList c1config =
      (true, some "Unknown".toList) ∧
    ApiKeyAuth.validate_api_key_comparisons "key-alpha".toList c1config = 1 ∧
    ApiKeyAuth.validate_api_key_comparisons "key-beta".toList c1config = 2 ∧
    ApiKeyAuth.validate_api_key_comparisons "key-gamma".toList c1config = 2 := by
  refine ⟨by decide, by decide, by decide, by decide, by decide⟩

/-- Claim C2 (code_bug evidence): a whitespace-only Authorization header
is non-empty, so it passes the missing-header guard and reaches the
scheme-echo expression auth_header.split()[0], where split() returns an
empty list and the indexing raises an uncaught IndexError instead of a
401 response. -/
theorem C2_whitespace_header_crashes :
    ApiKeyAuth.dispatch_env_mode c2config "/mcp".toList "   ".toList =
      ApiKeyAuth.DispatchResult.pythonError
        "IndexError: list index out of range".toList := by
  decide

/-- Claim C3: check_rate_limit issues its RPCs in the fixed order minute,
hour, day (the trace is a sublist of that order), returns on the first
exceeded window without querying later windows, and the retry-after value
is fixed per window: 60 for minute, 3600 for hour, 86400 for day. -/
theorem C3_fixed_order_and_fixed_resets (key_record : KeyRecord)
    (store : Period → RpcResult) :
    ((check_rate_limit_trace key_record store).2).Sublist
        [Period.minute, Period.hour, Period.day] ∧
    ((check_rate_limit key_record store).2.1 = some Period.minute →
      check_rate_limit key_record store = (false, some Period.minute, some 60) ∧
      Period.hour ∉ (check_rate_limit_trace key_record store).2 ∧
      Period.day ∉ (check_rate_limit_trace key_record store).2) ∧
    ((check_rate_limit key_record store).2.1 = some Period.hour →
      check_rate_limit key_record store = (false, some Period.hour, some 3600) ∧
      Period.day ∉ (check_rate_limit_trace key_record store).2) ∧
    ((check_rate_limit key_record store).2.1 = some Period.day →
      check_rate_limit key_record store = (false, some Period.day, some 86400)) := by
  simp only [check_rate_limit, check_rate_limit_trace, checkPeriod]
  generalize (pyGetLimit key_record.rate_limit_per_minute 60).truthy = b1
  generalize (pyGetLimit key_record.rate_limit_per_hour 1000).truthy = b2
  generalize (pyGetLimit key_record.rate_limit_per_day 10000).truthy = b3
  generalize store Period.minute = r1
  generalize store Period.hour = r2
  generalize store Period.day = r3
  cases b1 <;> cases b2 <;> cases b3 <;>
    rcases r1 with _ | _ | (_ | _) <;> rcases r2 with _ | _ | (_ | _) <;>
    rcases r3 with _ | _ | (_ | _) <;> decide

/-- Claim C4: whenever the store raises during one of the rate-limit RPCs
actually issued by the check, check_rate_limit fails open, returning
within-limit with no exceeded period and no retry-after. -/
theorem C4_store_error_fails_open (key_record : KeyRecord)
    (store : Period → RpcResult)
    (h : ∃ p ∈ (check_rate_limit_trace key_record store).2,
      store p = RpcResult.err) :
    check_rate_limit key_record store = (true, none, none) := by
  obtain ⟨p, hp, herr⟩ := h
  simp only [check_rate_limit, check_rate_limit_trace, checkPeriod] at hp ⊢
  revert hp herr
  cases p <;>
    generalize (pyGetLimit key_record.rate_limit_per_minute 60).truthy = b1 <;>
    generalize (pyGetLimit key_record.rate_limit_per_hour 1000).truthy = b2 <;>
    generalize (pyGetLimit key_record.rate_limit_per_day 10000).truthy = b3 <;>
    generalize store Period.minute = r1 <;>
    generalize store Period.hour = r2 <;>
    generalize store Period.day = r3 <;>
    cases b1 <;> cases b2 <;> cases b3 <;>
    rcases r1 with _ | _ | (_ | _) <;> rcases r2 with _ | _ | (_ | _) <;>
    rcases r3 with _ | _ | (_ | _) <;> decide

/-- Witness for C4 at a concrete input: all limits at their defaults, the
minute RPC is issued and raises, and the check fails open. -/
theorem C4_witness :
    (∃ p ∈ (check_rate_limit_trace recDefaults storeAllErr).2,
      storeAllErr p = RpcResult.err) ∧
    check_rate_limit recDefaults storeAllErr = (true, none, none) :=
  ⟨⟨Period.minute, by decide, rfl⟩,
    C4_store_error_fails_open recDefaults storeAllErr
      ⟨Period.minute, by decide, rfl⟩⟩

/-- Claim C10: a per-window ceiling that is NULL or 0 is Python-falsy at
the guard, so that window's check is skipped entirely: its RPC is never
issued and it is never reported as the exceeded period, whatever the
store replies for the other windows. -/
theorem C10_falsy_limit_skips_window (key_record : KeyRecord)
    (store : Period → RpcResult) (p : Period)
    (h : limitFieldOf key_record p = LimitField.null ∨
      limitFieldOf key_record p = LimitField.val 0) :
    p ∉ (check_rate_limit_trace key_record store).2 ∧
    (check_rate_limit key_record store).2.1 ≠ some p := by
  simp only [check_rate_limit, check_rate_limit_trace, checkPeriod]
  rcases h with h | h <;> cases p <;> simp only [limitFieldOf] at h <;> rw [h] <;>
    (try generalize (pyGetLimit key_record.rate_limit_per_minute 60).truthy = b1) <;>
    (try generalize (pyGetLimit key_record.rate_limit_per_hour 1000).truthy = b2) <;>
    (try generalize (pyGetLimit key_record.rate_limit_per_day 10000).truthy = b3) <;>
    generalize store Period.minute = r1 <;>
    generalize store Period.hour = r2 <;>
    generalize store Period.day = r3 <;>
    (try cases b1) <;> (try cases b2) <;> (try cases b3) <;>
    rcases r1 with _ | _ | (_ | _) <;> rcases r2 with _ | _ | (_ | _) <;>
    rcases r3 with _ | _ | (_ | _) <;> decide

/-- Witness for C10 at a concrete input: a per-minute ceiling of 0 with a
permissive store; the minute RPC is never issued and minute is never the
exceeded period. -/
theorem C10_witness :
    (limitFieldOf recMinuteZero Period.minute = LimitField.null ∨
      limitFieldOf recMinuteZero Period.minute = LimitField.val 0) ∧
    (Period.minute ∉ (check_rate_limit_trace recMinuteZero storeAllOk).2 ∧
      (check_rate_limit recMinuteZero storeAllOk).2.1 ≠ some Period.minute) :=
  ⟨Or.inr rfl,
    C10_falsy_limit_skips_window recMinuteZero storeAllOk Period.minute
      (Or.inr rfl)⟩

set_option maxRecDepth 100000 in
/-- Counterexample to claim C5 as stated: two validations of credential 0
both at time 1000 (identical bucket 1000 / 300 = 3) observe different
records, because the 100 validations of other credentials in between
filled lru_cache(maxsize=100) and evicted credential 0's entry, so the
second validation re-fetches and does observe the store-side mutation
within the bucket. -/
theorem C5_counterexample :
    c5firstCall.consulted = some c5recBefore ∧
    c5secondCall.consulted = some c5recAfter ∧
    c5recBefore ≠ c5recAfter := by
  refine ⟨by decide, by decide, by decide⟩

/-- Claim C5 (amended): the cache bucket is now / 300; a validation of the
same credential in the same bucket, while the first validation's entry is
still cached (here: immediately after it, before any eviction), observes
the identical record and issues no store fetch even against an arbitrarily
mutated store snapshot; and a validation whose (hash, bucket) pair is not
cached (as after a bucket rollover, buckets being fresh values of now /
300) performs a fresh store fetch and observes exactly what the store now
returns. -/
theorem C5_bucket_cache_semantics (hash : Nat → Nat)
    (fetch fetch2 : Nat → FetchResult) (now now2 api_key : Nat)
    (c : LruCache) (hmax : 0 < c.maxsize)
    (hbucket : now / cache_ttl = now2 / cache_ttl) :
    ((validate_api_key hash fetch2 now2 api_key
        (validate_api_key hash fetch now api_key c).cache).consulted =
      (validate_api_key hash fetch now api_key c).consulted ∧
      (validate_api_key hash fetch2 now2 api_key
        (validate_api_key hash fetch now api_key c).cache).fetched = false) ∧
    (lruLookup c (hash api_key, now / cache_ttl) = none →
      (validate_api_key hash fetch now api_key c).fetched = true ∧
      (validate_api_key hash fetch now api_key c).consulted =
        fetchValue fetch (hash api_key)) := by
  obtain ⟨hc1, ho1, hf1⟩ := validate_api_key_effects hash fetch now api_key c
  obtain ⟨hc2, ho2, hf2⟩ :=
    validate_api_key_effects hash fetch2 now2 api_key
      (validate_api_key hash fetch now api_key c).cache
  constructor
  · rw [ho2, hf2, hc1, ho1, ← hbucket]
    cases hl : lruLookup c (hash api_key, now / cache_ttl) with
    | some v => simp [get_cached_key, hl, lruLookup_lruTouch]
    | none =>
      simp [get_cached_key, hl,
        lruLookup_lruInsert c (hash api_key, now / cache_ttl)
          (fetchValue fetch (hash api_key)) hmax]
  · intro hl
    rw [hf1, ho1]
    simp [get_cached_key, hl]

/-- Witness for C5 at concrete inputs: credential 5 validated at times 0
and 299 (same bucket 0), the second against the mutated store snapshot;
and the boundary part instantiated at the cold cache. -/
theorem C5_witness :
    0 < emptyCache.maxsize ∧
    (0 : Nat) / cache_ttl = 299 / cache_ttl ∧
    (((validate_api_key id c5storeAfter 299 5
        (validate_api_key id c5storeBefore 0 5 emptyCache).cache).consulted =
      (validate_api_key id c5storeBefore 0 5 emptyCache).consulted ∧
      (validate_api_key id c5storeAfter 299 5
        (validate_api_key id c5storeBefore 0 5 emptyCache).cache).fetched =
        false) ∧
    (lruLookup emptyCache (id 5, 0 / cache_ttl) = none →
      (validate_api_key id c5storeBefore 0 5 emptyCache).fetched = true ∧
      (validate_api_key id c5storeBefore 0 5 emptyCache).consulted =
        fetchValue c5storeBefore (id 5))) :=
  ⟨by decide, by decide,
    C5_bucket_cache_semantics id c5storeBefore c5storeAfter 0 299 5 emptyCache
      (by decide) (by decide)⟩

/-- Claim C6: a record whose expiry timestamp is in the past is rejected
as (False, None) on every validation, both when it is read from the
bucket cache and when it has just been freshly fetched from the store. -/
theorem C6_expired_always_rejected (hash : Nat → Nat)
    (fetch : Nat → FetchResult) (now api_key e : Nat) (rec : KeyRecord)
    (c : LruCache) (hexp : rec.expires_at = some e) (hlt : e < now) :
    (lruLookup c (hash api_key, now / cache_ttl) = some (some rec) →
      (validate_api_key hash fetch now api_key c).result = (false, none)) ∧
    (lruLookup c (hash api_key, now / cache_ttl) = none →
      fetch (hash api_key) = FetchResult.found rec →
      (validate_api_key hash fetch now api_key c).result = (false, none)) := by
  constructor
  · intro hl
    simp [validate_api_key, get_cached_key, hl, hexp, hlt]
  · intro hl hf
    simp [validate_api_key, get_cached_key, fetchValue, hl, hf, hexp, hlt]

/-- Witness for C6 at a concrete input: a record expired at second 500
validated at second 1000 on a cold cache against a store returning it. -/
theorem C6_witness :
    recExpired.expires_at = some 500 ∧
    500 < 1000 ∧
    ((lruLookup emptyCache (id 3, 1000 / cache_ttl) = some (some recExpired) →
      (validate_api_key id c6store 1000 3 emptyCache).result = (false, none)) ∧
    (lruLookup emptyCache (id 3, 1000 / cache_ttl) = none →
      c6store (id 3) = FetchResult.found recExpired →
      (validate_api_key id c6store 1000 3 emptyCache).result = (false, none))) :=
  ⟨rfl, by decide,
    C6_expired_always_rejected id c6store 1000 3 500 recExpired emptyCache rfl
      (by decide)⟩

/-- Claim C9: when the credential is not cached for the current bucket and
the store fetch raises, validate_api_key denies with (False, None) instead
of admitting the request or letting the exception escape. -/
theorem C9_fetch_error_denies (hash : Nat → Nat) (fetch : Nat → FetchResult)
    (now api_key : Nat) (c : LruCache)
    (hmiss : lruLookup c (hash api_key, now / cache_ttl) = none)
    (herr : fetch (hash api_key) = FetchResult.err) :
    (validate_api_key hash fetch now api_key c).result = (false, none) := by
  simp [validate_api_key, get_cached_key, fetchValue, hmiss, herr]

/-- Witness for C9 at a concrete input: a cold cache and a store whose
fetch raises. -/
theorem C9_witness :
    lruLookup emptyCache (id 4, 700 / cache_ttl) = none ∧
    c9store (id 4) = FetchResult.err ∧
    (validate_api_key id c9store 700 4 emptyCache).result = (false, none) :=
  ⟨rfl, rfl, C9_fetch_error_denies id c9store 700 4 emptyCache rfl rfl⟩

/-- Unfolding lemma: one more accepted request applies
update_key_last_used to the state after n requests. -/
theorem runUpdates_succ (T : Nat → Nat) (counts : List (Nat × Nat))
    (api_key_id n : Nat) :
    runUpdates T counts api_key_id (n + 1) =
      ((update_key_last_used (runUpdates T counts api_key_id n).1
          (runUpdates T counts api_key_id n).2.1 api_key_id true).1,
        (update_key_last_used (runUpdates T counts api_key_id n).1
          (runUpdates T counts api_key_id n).2.1 api_key_id true).2.1,
        (runUpdates T counts api_key_id n).2.2 ++
          (update_key_last_used (runUpdates T counts api_key_id n).1
            (runUpdates T counts api_key_id n).2.1 api_key_id true).2.2) :=
  rfl

/-- An accepted request that leaves the counter below the threshold
issues no store update: it only bumps the in-memory counter. -/
theorem update_step_no_write (T : Nat → Nat) (counts : List (Nat × Nat))
    (api_key_id m : Nat) (hm : dictGetNat counts api_key_id 0 = m)
    (hlt : m + 1 < batch_update_threshold) :
    update_key_last_used T counts api_key_id true =
      (T, dictSetNat counts api_key_id (m + 1), []) := by
  have hne : (m + 1) % batch_update_threshold ≠ 0 := by
    rw [Nat.mod_eq_of_lt hlt]
    omega
  simp [update_key_last_used, hm, dictGetNat_dictSetNat, hne]

/-- An accepted request that brings the counter from 9 to the threshold
issues exactly one store update carrying the stored total plus the full
accumulated count, and resets the in-memory counter to zero. -/
theorem update_step_write (T : Nat → Nat) (counts : List (Nat × Nat))
    (api_key_id : Nat) (h9 : dictGetNat counts api_key_id 0 = 9) :
    update_key_last_used T counts api_key_id true =
      (fun i => if i == api_key_id then T api_key_id + 10 else T i,
        dictSetNat (dictSetNat counts api_key_id 10) api_key_id 0,
        [⟨api_key_id, some (T api_key_id + 10)⟩]) := by
  simp [update_key_last_used, h9, dictGetNat_dictSetNat, batch_update_threshold]

/-- Below the batching threshold, accepted requests leave the persisted
totals untouched and issue no update: after k of them (k at most 9) the
store function is unchanged, the in-memory counter equals k, and no write
event has been emitted. -/
theorem runUpdates_below_threshold (T : Nat → Nat)
    (counts : List (Nat × Nat)) (api_key_id : Nat)
    (h0 : dictGetNat counts api_key_id 0 = 0) :
    ∀ k, k ≤ 9 →
      (runUpdates T counts api_key_id k).1 = T ∧
      dictGetNat (runUpdates T counts api_key_id k).2.1 api_key_id 0 = k ∧
      (runUpdates T counts api_key_id k).2.2 = [] := by
  intro k
  induction k with
  | zero => exact fun _ => ⟨rfl, h0, rfl⟩
  | succ n ih =>
    intro hn
    obtain ⟨hT, hc, hw⟩ := ih (by omega)
    have hstep := update_step_no_write
      (runUpdates T counts api_key_id n).1
      (runUpdates T counts api_key_id n).2.1 api_key_id n hc
      (by unfold batch_update_threshold; omega)
    rw [runUpdates_succ, hstep, hw, hT]
    exact ⟨rfl, dictGetNat_dictSetNat _ _ _ _, rfl⟩

/-- Claim C7: with the batching threshold of 10, starting from a flushed
in-memory counter, the first up-to-9 accepted requests for a credential
issue no last-used/total store update, and the 10th issues exactly one,
carrying the stored total incremented by the full accumulated count of 10
and resetting the in-memory counter to zero. -/
theorem C7_batched_last_used_updates (T : Nat → Nat)
    (counts : List (Nat × Nat)) (api_key_id k : Nat)
    (h0 : dictGetNat counts api_key_id 0 = 0) (hk : k ≤ 9) :
    (runUpdates T counts api_key_id k).2.2 = [] ∧
    (runUpdates T counts api_key_id 10).2.2 =
      [⟨api_key_id, some (T api_key_id + 10)⟩] ∧
    dictGetNat (runUpdates T counts api_key_id 10).2.1 api_key_id 0 = 0 ∧
    (runUpdates T counts api_key_id 10).1 api_key_id = T api_key_id + 10 := by
  obtain ⟨-, -, hwk⟩ := runUpdates_below_threshold T counts api_key_id h0 k hk
  obtain ⟨hT9, hc9, hw9⟩ :=
    runUpdates_below_threshold T counts api_key_id h0 9 (by omega)
  have hstep := update_step_write T
    (runUpdates T counts api_key_id 9).2.1 api_key_id hc9
  have h10 : runUpdates T counts api_key_id 10 =
      runUpdates T counts api_key_id (9 + 1) := rfl
  refine ⟨hwk, ?_, ?_, ?_⟩
  · rw [h10, runUpdates_succ, hT9, hstep, hw9]
    simp
  · rw [h10, runUpdates_succ, hT9, hstep]
    simp [dictGetNat_dictSetNat]
  · rw [h10, runUpdates_succ, hT9, hstep]
    simp

/-- Witness for C7 at concrete inputs: stored total 5 for credential 1,
empty counter dict, 5 then 10 accepted requests. -/
theorem C7_witness :
    dictGetNat [] 1 0 = 0 ∧
    5 ≤ 9 ∧
    ((runUpdates (fun _ => 5) [] 1 5).2.2 = [] ∧
      (runUpdates (fun _ => 5) [] 1 10).2.2 = [⟨1, some 15⟩] ∧
      dictGetNat (runUpdates (fun _ => 5) [] 1 10).2.1 1 0 = 0 ∧
      (runUpdates (fun _ => 5) [] 1 10).1 1 = 15) :=
  ⟨rfl, by decide, C7_batched_last_used_updates (fun _ => 5) [] 1 5 rfl (by decide)⟩

/-- Claim C8: when MCP_API_AUTH_ENABLED resolves to true but the parsed
credential list is empty, from_env downgrades enabled to False while
emitting the warning, and the server then never installs the
authentication middleware (database mode being off in this static
configuration), so no request is rejected for authentication. -/
theorem C8_empty_keys_disable_auth (env : ApiKeyAuth.Env)
    (hen : (PyStr.toLower (env.mcp_api_auth_enabled.getD "false".toList) ==
      "true".toList) = true)
    (hkeys : ApiKeyAuth.parseKeys (env.mcp_api_keys.getD []) = []) :
    (ApiKeyAuth.from_env env).1.enabled = false ∧
    (ApiKeyAuth.from_env env).2 = true ∧
    LegalRagServer.middleware_installed false (ApiKeyAuth.from_env env).1 =
      false := by
  simp only [ApiKeyAuth.from_env, hen, hkeys,
    LegalRagServer.middleware_installed]
  simp

/-- Witness for C8 at a concrete environment: auth enabled and a
MCP_API_KEYS value of " , " whose entries all strip to empty. -/
theorem C8_witness :
    (PyStr.toLower ((some "true".toList).getD "false".toList) ==
      "true".toList) = true ∧
    ApiKeyAuth.parseKeys ((some " , ".toList).getD []) = [] ∧
    ((ApiKeyAuth.from_env ⟨some "true".toList, some " , ".toList, none⟩).1.enabled = false ∧
      (ApiKeyAuth.from_env ⟨some "true".toList, some " , ".toList, none⟩).2 = true ∧
      LegalRagServer.middleware_installed false
        (ApiKeyAuth.from_env ⟨some "true".toList, some " , ".toList, none⟩).1 =
        false) :=
  ⟨by decide, by decide,
    C8_empty_keys_disable_auth ⟨some "true".toList, some " , ".toList, none⟩
      (by decide) (by decide)⟩
